import Mathlib

/-!
Shallow embedding of the DMARC monitor's report-analysis core
(`src/database.py`, `src/enhanced_reporting.py`, `src/non_technical_formatter.py`).

Modelling conventions:
* SQLite tables become Lean lists of row structures; `AUTOINCREMENT` keys are
  explicit counters starting at 1.
* `TIMESTAMP` columns (`processed_at`, `created_at`) hold ISO-8601 strings in
  SQLite and are only ever compared with other such strings; the comparison is
  order-isomorphic to epoch seconds, so they are modelled as integers, and the
  current wall-clock time is passed in as an explicit `now : Int`.
* Python floats are modelled as rationals; `round(x, 1)` is Python's
  round-half-to-even, modelled exactly by `pyRound1`.
* Python `x in s` substring tests become `strContains`, `s.lower()` becomes
  `lowerStr` (ASCII-faithful).
-/

/-- Test whether the first character list is a leading segment of the second. -/
def charsPrefixTest : List Char → List Char → Bool
  | [], _ => true
  | _ :: _, [] => false
  | a :: as, b :: bs => a == b && charsPrefixTest as bs

/-- Test whether `needle` occurs as a contiguous segment of the second list. -/
def charsContain (needle : List Char) : List Char → Bool
  | [] => needle.isEmpty
  | b :: bs => charsPrefixTest needle (b :: bs) || charsContain needle bs

/-- Python `needle in hay` on strings. -/
def strContains (hay needle : String) : Bool :=
  charsContain needle.data hay.data

/-- Python `s.lower()` (character-wise lowercasing). -/
def lowerStr (s : String) : String :=
  String.mk (s.data.map Char.toLower)

/-- Python `s.startswith(p)`. -/
def strStarts (s p : String) : Bool :=
  charsPrefixTest p.data s.data

/-- Floor of a rational, written with `Int.fdiv` (division rounding toward
negative infinity) so that it reduces inside the kernel; it agrees with
`Int.floor`, see `ratFloor_eq_floor`. -/
def ratFloor (q : ℚ) : ℤ :=
  Int.fdiv q.num q.den

/-- Round a rational to the nearest integer, ties to even: the rounding rule of
Python 3's builtin `round`. -/
def roundHalfToEven (q : ℚ) : ℤ :=
  let f : ℤ := ratFloor q
  let r : ℚ := q - f
  if r < 1/2 then f
  else if 1/2 < r then f + 1
  else if f % 2 = 0 then f else f + 1

/-- Python `round(q, 1)`. -/
def pyRound1 (q : ℚ) : ℚ :=
  (roundHalfToEven (q * 10) : ℚ) / 10

/-! ### Parsed DMARC report objects (input of `store_report`)

The dictionaries produced by the XML parser:
`parsed_report['metadata']['date_range']['begin']` etc.  The dict keys
`begin`/`end` are Lean keywords, so they are named `date_begin`/`date_end`. -/

structure DateRange where
  date_begin : Int
  date_end : Int
deriving DecidableEq

structure ReportMetadata where
  org_name : String
  report_id : String
  date_range : DateRange
deriving DecidableEq

structure ReportPolicy where
  domain : String
  p : String
  sp : String
  pct : Int
deriving DecidableEq

structure ParsedRecord where
  source_ip : String
  count : Nat
  disposition : String
  dkim : String
  spf : String
deriving DecidableEq

structure ParsedReport where
  metadata : ReportMetadata
  policy : ReportPolicy
  records : List ParsedRecord
deriving DecidableEq

/-! ### Database rows (tables created by `init_database`) -/

structure ReportRow where
  id : Nat
  domain : String
  org_name : String
  report_id : String
  date_begin : Int
  date_end : Int
  processed_at : Int
  policy_p : String
  policy_sp : String
  policy_pct : Int
  total_messages : Nat
  total_sources : Nat
deriving DecidableEq

structure RecordRow where
  id : Nat
  report_id : Nat
  source_ip : String
  count : Nat
  disposition : String
  dkim_result : String
  spf_result : String
deriving DecidableEq

structure AnalysisRow where
  id : Nat
  report_id : Nat
  claude_analysis : String
  has_issues : Bool
  auth_success_rate : ℚ
  new_sources_detected : Nat
  created_at : Int
deriving DecidableEq

structure AlertRow where
  id : Nat
  domain : String
  alert_type : String
  threshold_exceeded : String
  alert_sent : Bool
  created_at : Int
deriving DecidableEq

/-- The four tables plus the `AUTOINCREMENT` counters (SQLite row ids start
at 1).  Note the schema constraints that matter below: `reports` has
`UNIQUE(domain, org_name, report_id, date_begin, date_end)`, while `records`
and `analyses` have no uniqueness constraint beyond their autoincrement
primary key. -/
structure DB where
  reports : List ReportRow
  records : List RecordRow
  analyses : List AnalysisRow
  alert_history : List AlertRow
  next_report_id : Nat
  next_record_id : Nat
  next_analysis_id : Nat
  next_alert_id : Nat
deriving DecidableEq

def DB.empty : DB :=
  { reports := [], records := [], analyses := [], alert_history := []
    next_report_id := 1, next_record_id := 1, next_analysis_id := 1, next_alert_id := 1 }

/-! ### `store_report` and `_analyze_report_metrics` (database.py 81-182) -/

/-- Python `sum(record['count'] for record in records)`. -/
def total_messages (records : List ParsedRecord) : Nat :=
  (records.map (fun r => r.count)).sum

/-- Python `sum(record['count'] ... if record['dkim'] == 'pass' and record['spf'] == 'pass')`. -/
def successful_messages (records : List ParsedRecord) : Nat :=
  ((records.filter (fun r => r.dkim == "pass" && r.spf == "pass")).map (fun r => r.count)).sum

/-- Python `len(set(record['source_ip'] for record in records))`. -/
def distinct_ips (records : List ParsedRecord) : Nat :=
  ((records.map (fun r => r.source_ip)).dedup).length

/-- Embedding of `DMARCDatabase._analyze_report_metrics`: returns
`(has_issues, auth_success_rate, new_sources)`. -/
def analyze_report_metrics (pr : ParsedReport) (claude_analysis : String) : Bool × ℚ × Nat :=
  let total := total_messages pr.records
  if total = 0 then (false, 100, 0)
  else
    let successful := successful_messages pr.records
    let auth_success_rate : ℚ := ((successful : ℚ) / (total : ℚ)) * 100
    let lowered := lowerStr claude_analysis
    let has_issues :=
      decide (auth_success_rate < 95) ||
      strContains lowered "issue" ||
      strContains lowered "problem" ||
      strContains lowered "fail" ||
      strContains lowered "suspicious" ||
      strContains claude_analysis "⚠️" ||
      strContains claude_analysis "❌"
    (has_issues, auth_success_rate, distinct_ips pr.records)

/-- The `SELECT id FROM reports WHERE domain = ? AND org_name = ? AND
report_id = ? AND date_begin = ? AND date_end = ?` lookup of `store_report`. -/
def find_report_row (db : DB) (pr : ParsedReport) : Option ReportRow :=
  db.reports.find? (fun r =>
    r.domain == pr.policy.domain &&
    r.org_name == pr.metadata.org_name &&
    r.report_id == pr.metadata.report_id &&
    r.date_begin == pr.metadata.date_range.date_begin &&
    r.date_end == pr.metadata.date_range.date_end)

/-- SQL `INSERT OR IGNORE INTO reports ...`: the five-column UNIQUE constraint
makes this a no-op when the same report key is already present. -/
def insert_report_ignore (db : DB) (pr : ParsedReport) (now : Int) : DB :=
  match find_report_row db pr with
  | some _ => db
  | none =>
    { db with
      reports := db.reports ++ [{
        id := db.next_report_id
        domain := pr.policy.domain
        org_name := pr.metadata.org_name
        report_id := pr.metadata.report_id
        date_begin := pr.metadata.date_range.date_begin
        date_end := pr.metadata.date_range.date_end
        processed_at := now
        policy_p := pr.policy.p
        policy_sp := pr.policy.sp
        policy_pct := pr.policy.pct
        total_messages := total_messages pr.records
        total_sources := pr.records.length }]
      next_report_id := db.next_report_id + 1 }

/-- SQL `INSERT OR IGNORE INTO records ...`: the `records` table has no UNIQUE
constraint, and the autoincrement key never collides, so in SQLite the
`OR IGNORE` clause never fires and every call appends a fresh row. -/
def insert_record (db : DB) (rid : Nat) (rec : ParsedRecord) : DB :=
  { db with
    records := db.records ++ [{
      id := db.next_record_id
      report_id := rid
      source_ip := rec.source_ip
      count := rec.count
      disposition := rec.disposition
      dkim_result := rec.dkim
      spf_result := rec.spf }]
    next_record_id := db.next_record_id + 1 }

/-- SQL `INSERT OR REPLACE INTO analyses ...`: the `analyses` table has no UNIQUE
constraint on `report_id`, and the autoincrement key never collides, so in
SQLite the `OR REPLACE` clause never fires and every call appends a fresh
row. -/
def insert_analysis (db : DB) (rid : Nat) (claude_analysis : String)
    (has_issues : Bool) (rate : ℚ) (new_sources : Nat) (now : Int) : DB :=
  { db with
    analyses := db.analyses ++ [{
      id := db.next_analysis_id
      report_id := rid
      claude_analysis := claude_analysis
      has_issues := has_issues
      auth_success_rate := rate
      new_sources_detected := new_sources
      created_at := now }]
    next_analysis_id := db.next_analysis_id + 1 }

/-- Embedding of `DMARCDatabase.store_report` (the non-raising run): insert
the report row (or ignore a duplicate), resolve the row id, insert one row
per parsed record, compute metrics and insert the analysis row, and return
the database id.  The `none` branch of the lookup mirrors the
`fetchone()[0]` raising into the `except` clause (it is unreachable, see
`find_after_insert`). -/
def store_report (db : DB) (pr : ParsedReport) (claude_analysis : String) (now : Int) :
    Option Nat × DB :=
  let db1 := insert_report_ignore db pr now
  match find_report_row db1 pr with
  | none => (none, db)
  | some row =>
    let db2 := pr.records.foldl (fun d rec => insert_record d row.id rec) db1
    let m := analyze_report_metrics pr claude_analysis
    let db3 := insert_analysis db2 row.id claude_analysis m.1 m.2.1 m.2.2 now
    (some row.id, db3)

/-- Number of SQL statements issued inside the `store_report` transaction:
the report insert, the id lookup, one insert per record, and the analysis
insert. -/
def store_statement_count (pr : ParsedReport) : Nat :=
  pr.records.length + 3

/-- Model of `store_report` in which the `k`-th SQL statement of the
transaction raises (`fail_at = some k`, zero-based).  The body of
`store_report` runs inside `with sqlite3.connect(...)` — the connection
context manager rolls the open transaction back when the body raises — and
the surrounding `except` clause logs and returns `None`, so the caller sees
the failure sentinel and the committed database is unchanged.
`fail_at = none` is the non-failing run. -/
def store_report_with_failure (db : DB) (pr : ParsedReport) (claude_analysis : String)
    (now : Int) (fail_at : Option Nat) : Option Nat × DB :=
  match fail_at with
  | some k => if k < store_statement_count pr then (none, db)
              else store_report db pr claude_analysis now
  | none => store_report db pr claude_analysis now

/-! ### Read-side queries (database.py 184-273) -/

/-- The `FROM reports r JOIN analyses a ON r.id = a.report_id` join used by
every read query. -/
def join_reports_analyses (db : DB) : List (ReportRow × AnalysisRow) :=
  db.reports.flatMap (fun r =>
    (db.analyses.filter (fun a => a.report_id == r.id)).map (fun a => (r, a)))

/-- Embedding of `get_historical_data`: report+analysis rows of a domain whose
`date_begin` lies in the trailing `days_back`-day window.  The SQL
`ORDER BY r.date_begin DESC` is dropped: the callers in
`enhanced_reporting.py` consume only the length and sums of the result, which
are order-independent. -/
def get_historical_data (db : DB) (now : Int) (domain : String) (days_back : Nat) :
    List (ReportRow × AnalysisRow) :=
  let cutoff_timestamp : Int := now - (days_back : Int) * 86400
  (join_reports_analyses db).filter (fun ra =>
    ra.1.domain == domain && ra.1.date_begin ≥ cutoff_timestamp)

/-- Embedding of `get_recent_issues`: joined rows with `has_issues` processed
in the trailing `hours_back` hours (ordering dropped as above; the only
caller uses the length). -/
def get_recent_issues (db : DB) (now : Int) (hours_back : Nat) :
    List (ReportRow × AnalysisRow) :=
  let cutoff : Int := now - (hours_back : Int) * 3600
  (join_reports_analyses db).filter (fun ra =>
    ra.2.has_issues && ra.1.processed_at ≥ cutoff)

structure SummaryStats where
  total_reports : Nat
  unique_domains : Nat
  total_messages : Nat
  reports_with_issues : Nat
  avg_auth_rate : ℚ
  clean_reports : Nat
deriving DecidableEq

/-- Embedding of `get_summary_stats`.  SQL `AVG` over zero rows is NULL, and
Python replaces it via `result[4] or 100.0`; because `or` also treats an
exact 0.0 as falsy, a zero average falls back to 100.0 as well. -/
def get_summary_stats (db : DB) (now : Int) (hours_back : Nat) : SummaryStats :=
  let cutoff : Int := now - (hours_back : Int) * 3600
  let rows := (join_reports_analyses db).filter (fun ra => ra.1.processed_at ≥ cutoff)
  let total := rows.length
  let avg_opt : Option ℚ :=
    if rows.isEmpty then none
    else some (((rows.map (fun ra => ra.2.auth_success_rate)).sum) / (rows.length : ℚ))
  { total_reports := total
    unique_domains := ((rows.map (fun ra => ra.1.domain)).dedup).length
    total_messages := (rows.map (fun ra => ra.1.total_messages)).sum
    reports_with_issues := (rows.filter (fun ra => ra.2.has_issues)).length
    avg_auth_rate := pyRound1 (match avg_opt with
      | none => 100
      | some a => if a = 0 then 100 else a)
    clean_reports := total - (rows.filter (fun ra => ra.2.has_issues)).length }

structure TrendInfo where
  historical_avg : ℚ
  current_rate : ℚ
  change : ℚ
  trend : String
deriving DecidableEq

/-- The joined rows feeding the `AVG` of `compare_with_historical`: the
domain's reports whose processing time lies in the window
`[now - 30 days, now - 7 days]`. -/
def hist_pairs (db : DB) (now : Int) (domain : String) : List (ReportRow × AnalysisRow) :=
  (join_reports_analyses db).filter (fun ra =>
    ra.1.domain == domain &&
    ra.1.processed_at ≤ now - 7 * 86400 &&
    ra.1.processed_at ≥ now - 30 * 86400)

/-- Embedding of `compare_with_historical`.  The Python fallback is
`result[0] if result and result[0] else current_rate`: `AVG` over zero rows
is NULL, and a 0.0 average is falsy too, so both fall back to
`current_rate`.  The trend label is computed from the unrounded change; the
returned fields are rounded to one decimal. -/
def compare_with_historical (db : DB) (now : Int) (domain : String)
    (current_auth_rate : ℚ) : TrendInfo :=
  let pairs := hist_pairs db now domain
  let avg_opt : Option ℚ :=
    if pairs.isEmpty then none
    else some (((pairs.map (fun ra => ra.2.auth_success_rate)).sum) / (pairs.length : ℚ))
  let historical_avg : ℚ :=
    match avg_opt with
    | none => current_auth_rate
    | some a => if a = 0 then current_auth_rate else a
  let change := current_auth_rate - historical_avg
  { historical_avg := pyRound1 historical_avg
    current_rate := pyRound1 current_auth_rate
    change := pyRound1 change
    trend := if change > 2 then "improved"
             else if change < -2 then "declined"
             else "stable" }

/-! ### `purge_old_data` (database.py 275-341) -/

structure PurgeStats where
  reports_deleted : Nat
  records_deleted : Nat
  analyses_deleted : Nat
  alerts_deleted : Nat
  retention_days : Nat
deriving DecidableEq

/-- Embedding of `purge_old_data`.  When no report predates the cutoff the
function returns the zeroed stats early — before the alert-history delete
statement, which is therefore skipped.  The final `VACUUM` reclaims file
space and does not change the logical table contents, so it is not
represented in the state. -/
def purge_old_data (db : DB) (now : Int) (retention_days : Nat) : PurgeStats × DB :=
  let cutoff_timestamp : Int := now - (retention_days : Int) * 86400
  let old := db.reports.filter (fun r => decide (r.date_begin < cutoff_timestamp))
  if old.length = 0 then
    ({ reports_deleted := 0, records_deleted := 0, analyses_deleted := 0,
       alerts_deleted := 0, retention_days := retention_days }, db)
  else
    let old_report_ids := old.map (fun r => r.id)
    let db2 : DB := { db with
      reports := db.reports.filter (fun r => !(decide (r.date_begin < cutoff_timestamp)))
      records := db.records.filter (fun rec => !(old_report_ids.contains rec.report_id))
      analyses := db.analyses.filter (fun a => !(old_report_ids.contains a.report_id))
      alert_history := db.alert_history.filter (fun al => !(decide (al.created_at < cutoff_timestamp))) }
    ({ reports_deleted := old.length
       records_deleted := (db.records.filter (fun rec => old_report_ids.contains rec.report_id)).length
       analyses_deleted := (db.analyses.filter (fun a => old_report_ids.contains a.report_id)).length
       alerts_deleted := (db.alert_history.filter (fun al => decide (al.created_at < cutoff_timestamp))).length
       retention_days := retention_days }, db2)

/-! ### Database methods present only as callers/tests in the sources -/

/-- Modelled from the spec: `get_failure_details` is called on the database by
`_create_issues_report` and exercised by the test scripts, but its definition
is not among the provided sources.  Per the spec it returns, for that
specific report, the stored records with DKIM ≠ pass or SPF ≠ pass. -/
def get_failure_details (db : DB) (_domain : String) (dbReportId : Nat) : List RecordRow :=
  db.records.filter (fun rec =>
    rec.report_id == dbReportId &&
    (rec.dkim_result != "pass" || rec.spf_result != "pass"))

structure IpIntel where
  organization : String
  is_suspicious : Bool
deriving DecidableEq

/-- Modelled from the spec: `get_ip_intelligence` is called on the database by
the composer but its definition is not among the provided sources.  Per the
spec it is a pure lookup over known provider address-range prefixes: major
providers map to trusted labels, a small set of previously-observed-abusive
ranges is flagged suspicious, and everything else defaults to
"Unknown Provider".  The concrete entries follow the repository's test
expectations. -/
def get_ip_intelligence (ip : String) : IpIntel :=
  if strStarts ip "40.107." then { organization := "Microsoft Corporation (Office 365)", is_suspicious := false }
  else if strStarts ip "209.85." then { organization := "Google LLC (Gmail)", is_suspicious := false }
  else if strStarts ip "50.63." then { organization := "Unknown Provider (50.63.x.x range)", is_suspicious := true }
  else { organization := "Unknown Provider", is_suspicious := false }

/-- Modelled from the spec: `get_last_failure_date` is called on the database
by the clean-status composer but its definition is not among the provided
sources.  Per the spec it returns the most recent period-end among records
with any failure for the domain, or none. -/
def get_last_failure_date (db : DB) (domain : String) : Option Int :=
  let failure_ends : List Int :=
    db.reports.flatMap (fun r =>
      if r.domain == domain &&
         !(db.records.filter (fun rec =>
            rec.report_id == r.id &&
            (rec.dkim_result != "pass" || rec.spf_result != "pass"))).isEmpty
      then [r.date_end] else [])
  failure_ends.foldl (fun acc d =>
    match acc with
    | none => some d
    | some m => some (max m d)) none

/-! ### Configuration (`config['thresholds']`, `config['notifications']`)

Each optional key is an `Option`, and the reads go through `Option.getD`
with the same defaults as the Python `dict.get(key, default)` calls. -/

structure Thresholds where
  minimum_messages_for_alert : Option Nat
  auth_success_rate_min : Option ℚ
  auth_rate_drop_threshold : Option ℚ
  new_sources_threshold : Option ℚ
deriving DecidableEq

/-- A thresholds dict with none of the optional keys set, so every read
falls back to its coded default. -/
def default_thresholds : Thresholds :=
  { minimum_messages_for_alert := none, auth_success_rate_min := none,
    auth_rate_drop_threshold := none, new_sources_threshold := none }

structure Config where
  -- the Python config key is named email_subject_prefix
  subject_tag : String
  send_clean_status : Option Bool
  quiet_mode : Option Bool
  thresholds : Thresholds
deriving DecidableEq

/-! ### Issue classifier (`EnhancedReporter._has_significant_issues`) -/

/-- The analyzed-report dictionaries assembled in `dmarc_monitor.py` and fed
to the enhanced reporter: the parsed report, the narrative, and the database
id returned by `store_report` (None when storage failed). -/
structure AnalyzedReport where
  raw_data : ParsedReport
  claude_analysis : String
  db_report_id : Option Nat
deriving DecidableEq

/-- The authentication success rate as the classifier computes it
(`(successful_messages / total_messages) * 100 if total_messages > 0 else 100`). -/
def auth_success_rate_of (records : List ParsedRecord) : ℚ :=
  if total_messages records > 0 then
    ((successful_messages records : ℚ) / (total_messages records : ℚ)) * 100
  else 100

/-- The classifier's rate threshold check
(`auth_success_rate < self.thresholds.get('auth_success_rate_min', 95.0)`). -/
def rate_check_triggers (t : Thresholds) (records : List ParsedRecord) : Bool :=
  auth_success_rate_of records < t.auth_success_rate_min.getD 95

/-- The issue keywords scanned in the lowercased narrative. -/
def issue_keywords : List String :=
  ["issue", "problem", "fail", "suspicious", "error", "warning", "⚠️", "❌"]

/-- The positive keywords scanned in the lowercased narrative. -/
def positive_keywords : List String :=
  ["none detected", "no issues", "perfect", "healthy", "working well", "no problems",
   "perfect scores", "all clear", "success", "passing", "legitimate"]

def contains_positive_keyword (claude_analysis : String) : Bool :=
  positive_keywords.any (fun p => strContains (lowerStr claude_analysis) p)

def contains_issue_keyword (claude_analysis : String) : Bool :=
  issue_keywords.any (fun k => strContains (lowerStr claude_analysis) k)

/-- The narrative keyword step of `_has_significant_issues` (its final
block): any positive keyword forces not-significant, otherwise any issue
keyword makes it significant, otherwise not. -/
def keyword_step_significant (claude_analysis : String) : Bool :=
  if contains_positive_keyword claude_analysis then false
  else if contains_issue_keyword claude_analysis then true
  else false

/-- The historical average of `new_sources_detected` over the trailing 7-day
window, used by the new-sources check. -/
def avg_sources (historical_data : List (ReportRow × AnalysisRow)) : ℚ :=
  ((historical_data.map (fun ra => (ra.2.new_sources_detected : ℚ))).sum) /
    (historical_data.length : ℚ)

/-- Embedding of `EnhancedReporter._has_significant_issues`: the short-circuit
decision chain — minimum volume, rate threshold, historical drop, new
sources, narrative keywords. -/
def has_significant_issues (cfg : Config) (db : DB) (now : Int) (report : AnalyzedReport) : Bool :=
  let raw_data := report.raw_data
  let t := cfg.thresholds
  let total := total_messages raw_data.records
  if total < t.minimum_messages_for_alert.getD 10 then false
  else if rate_check_triggers t raw_data.records then true
  else
    let auth_success_rate := auth_success_rate_of raw_data.records
    let domain := raw_data.policy.domain
    let historical_comparison := compare_with_historical db now domain auth_success_rate
    if |historical_comparison.change| ≥ t.auth_rate_drop_threshold.getD 5 then true
    else
      let new_sources := distinct_ips raw_data.records
      let historical_data := get_historical_data db now domain 7
      if !historical_data.isEmpty &&
         decide ((new_sources : ℚ) > avg_sources historical_data + t.new_sources_threshold.getD 3) then true
      else keyword_step_significant report.claude_analysis

/-! ### Formatter pieces used by the composer (non_technical_formatter.py) -/

/-- Embedding of `NonTechnicalFormatter.get_risk_level`:
`(level, icon, description)`. -/
def get_risk_level (auth_rate : ℚ) : String × String × String :=
  if auth_rate < 70 then ("CRITICAL", "🔴", "Immediate action required - Major email security issues")
  else if auth_rate < 80 then ("HIGH", "🟠", "Action needed this week - Significant security gaps")
  else if auth_rate < 90 then ("MODERATE", "🟡", "Schedule fixes soon - Some security issues")
  else if auth_rate < 95 then ("LOW", "🟢", "Minor issues - Monitor and fix when convenient")
  else ("GOOD", "✅", "Excellent - Email security working well")

/-- Embedding of `EnhancedReporter._extract_enhanced_recommendations`: trim
each line, keep `**...**` headers as-is, indent list items, drop blank
lines; fall back to the raw narrative when nothing remains. -/
def extract_enhanced_recommendations (claude_analysis : String) : String :=
  let formatted_lines :=
    (claude_analysis.splitOn "\n").foldr (fun line acc =>
      let line := line.trim
      if line = "" then acc
      else if strStarts line "**" && line.endsWith "**" then line :: acc
      else if ["•", "-", "*", "1.", "2.", "3.", "4.", "5."].any (fun m => strStarts line m) then
        ("  " ++ line) :: acc
      else line :: acc) []
  if formatted_lines.isEmpty then claude_analysis
  else String.intercalate "\n" formatted_lines

/-! ### Report composer (`EnhancedReporter.generate_smart_report` etc.)

The payload bodies are long formatted strings in the source.  The embedding
keeps the string subject but represents the body as the ordered list of its
sections, each carrying exactly the data the source interpolates into that
part of the string; the surrounding fixed prose is abstracted away. -/

/-- A failure-detail entry after the composer's enrichment loop
(`detail['org_info'] = ip_intel['organization']`). -/
structure FailureDetail where
  row : RecordRow
  org_info : String
deriving DecidableEq

/-- The enriched per-IP failure table the issues body embeds for one stored
report: its failure details, each annotated with the IP-reputation
organization label. -/
def enrich_failure_details (db : DB) (domain : String) (rid : Nat) : List FailureDetail :=
  (get_failure_details db domain rid).map (fun d =>
    { row := d, org_info := (get_ip_intelligence d.source_ip).organization })

inductive BodyItem where
  | issues_header (risk_level : String) (issue_count clean_count : Nat) (stats : SummaryStats)
  | domain_detail (domain org_name : String) (auth_rate : ℚ) (trend : TrendInfo)
      (failure_section : Option (List FailureDetail)) (claude_section : String)
  | clean_domain_list (domains : List (String × Nat))
  | action_summary
  | clean_header (stats : SummaryStats)
  | clean_domain (domain org_name : String) (auth_rate : ℚ) (trend : TrendInfo)
      (last_failure : Option Int)
  | clean_recommendations
  | no_reports_status (recent_issue_count : Nat)
deriving DecidableEq

/-- The payload dictionaries returned by the three composers.  `no_reports`
is the dict key only the no-reports payload carries (read back with
`report_data.get('no_reports', False)`), `issue_count`/`clean_count`
likewise. -/
structure Payload where
  subject : String
  body : List BodyItem
  has_issues : Bool
  issue_count : Option Nat
  clean_count : Option Nat
  no_reports : Bool
deriving DecidableEq

/-- The per-domain block of `_create_issues_report`: quick stats, the hybrid
failure section (only when the report has a database id and a non-empty
failure-detail list), and the formatted narrative. -/
def issues_domain_block (db : DB) (now : Int) (r : AnalyzedReport) : BodyItem :=
  let domain := r.raw_data.policy.domain
  let auth_rate := auth_success_rate_of r.raw_data.records
  let historical_comparison := compare_with_historical db now domain auth_rate
  let failure_section : Option (List FailureDetail) :=
    match r.db_report_id with
    | none => none
    | some rid =>
      if (get_failure_details db domain rid).isEmpty then none
      else some (enrich_failure_details db domain rid)
  BodyItem.domain_detail domain r.raw_data.metadata.org_name auth_rate
    historical_comparison failure_section
    (extract_enhanced_recommendations r.claude_analysis)

/-- Embedding of `EnhancedReporter._create_issues_report`. -/
def create_issues_report (cfg : Config) (db : DB) (now : Int)
    (issues_reports clean_reports : List AnalyzedReport) : Payload :=
  let summary_stats := get_summary_stats db now 24
  let risk := get_risk_level summary_stats.avg_auth_rate
  { subject := cfg.subject_tag ++ " " ++ risk.2.1 ++ " " ++ risk.1 ++
      " Risk - " ++ toString issues_reports.length ++ " domains need attention"
    body :=
      BodyItem.issues_header risk.1 issues_reports.length clean_reports.length summary_stats ::
      issues_reports.map (issues_domain_block db now) ++
      (if clean_reports.isEmpty then [] else
        [BodyItem.clean_domain_list (clean_reports.map (fun r =>
          (r.raw_data.policy.domain, total_messages r.raw_data.records)))]) ++
      [BodyItem.action_summary]
    has_issues := true
    issue_count := some issues_reports.length
    clean_count := none
    no_reports := false }

/-- Embedding of `EnhancedReporter._create_clean_status_report`. -/
def create_clean_status_report (cfg : Config) (db : DB) (now : Int)
    (clean_reports : List AnalyzedReport) : Payload :=
  let summary_stats := get_summary_stats db now 24
  { subject := cfg.subject_tag ++ " ✅ All Clear - Email Security Working Well"
    body :=
      BodyItem.clean_header summary_stats ::
      clean_reports.map (fun r =>
        let domain := r.raw_data.policy.domain
        let auth_rate := auth_success_rate_of r.raw_data.records
        BodyItem.clean_domain domain r.raw_data.metadata.org_name auth_rate
          (compare_with_historical db now domain auth_rate)
          (get_last_failure_date db domain)) ++
      [BodyItem.clean_recommendations]
    has_issues := false
    issue_count := none
    clean_count := some clean_reports.length
    no_reports := false }

/-- Embedding of `EnhancedReporter._create_no_reports_summary`. -/
def create_no_reports_summary (cfg : Config) (db : DB) (now : Int) : Payload :=
  { subject := cfg.subject_tag ++ " 📭 No New DMARC Reports"
    body := [BodyItem.no_reports_status (get_recent_issues db now 72).length]
    has_issues := false
    issue_count := none
    clean_count := none
    no_reports := true }

/-- Embedding of `EnhancedReporter.generate_smart_report`: no input at all
gives the no-reports payload; otherwise the reports are split by the
classifier, and at least one significant report gives the issues payload,
zero significant reports give the clean payload when `send_clean_status`
is enabled (default true), and `None` otherwise. -/
def generate_smart_report (cfg : Config) (db : DB) (now : Int)
    (analyzed_reports : List AnalyzedReport) : Option Payload :=
  if analyzed_reports.isEmpty then some (create_no_reports_summary cfg db now)
  else
    let categorized := analyzed_reports.partition (fun r => has_significant_issues cfg db now r)
    let reports_with_issues := categorized.1
    let clean_reports := categorized.2
    if !reports_with_issues.isEmpty then
      some (create_issues_report cfg db now reports_with_issues clean_reports)
    else if cfg.send_clean_status.getD true then
      some (create_clean_status_report cfg db now clean_reports)
    else none

/-- Embedding of `EnhancedReporter.should_send_report`: None is never sent;
issues payloads always are; then `send_clean_status` (default true) sends
any remaining payload; then a no-reports payload is sent when `quiet_mode`
(default true) is disabled. -/
def should_send_report (cfg : Config) (report_data : Option Payload) : Bool :=
  match report_data with
  | none => false
  | some p =>
    if p.has_issues then true
    else if cfg.send_clean_status.getD true then true
    else if p.no_reports && !(cfg.quiet_mode.getD true) then true
    else false

/-- The gating predicate exactly as claim C3 words it, for comparison with
`should_send_report`: true iff the payload is an issues payload, or it is a
clean payload (neither issues nor no-reports) and clean-status notifications
are enabled, or it is a no-reports payload and quiet-mode is disabled. -/
def claimed_should_send (cfg : Config) (report_data : Option Payload) : Bool :=
  match report_data with
  | none => false
  | some p =>
    p.has_issues ||
    ((!p.has_issues && !p.no_reports) && cfg.send_clean_status.getD true) ||
    (p.no_reports && !(cfg.quiet_mode.getD true))

/-- The gating rule the code actually implements (the amended claim C3): a
non-null payload is sent iff it has issues, or clean-status notifications
are enabled (regardless of the payload's kind), or it is a no-reports
payload and quiet-mode is disabled. -/
def amended_gating (cfg : Config) (report_data : Option Payload) : Bool :=
  match report_data with
  | none => false
  | some p =>
    p.has_issues ||
    cfg.send_clean_status.getD true ||
    (p.no_reports && !(cfg.quiet_mode.getD true))

/-- Search an issues body for a given domain's hybrid failure section with a
given enriched failure table. -/
def body_has_failure_table (body : List BodyItem) (domain : String)
    (tbl : List FailureDetail) : Bool :=
  body.any (fun item =>
    match item with
    | BodyItem.domain_detail d _ _ _ failure_section _ =>
        d == domain && decide (failure_section = some tbl)
    | _ => false)

/-- Whether an optional composed payload's body carries the given failure
table for the given domain. -/
def payload_body_has_table (report_data : Option Payload) (domain : String)
    (tbl : List FailureDetail) : Bool :=
  match report_data with
  | none => false
  | some p => body_has_failure_table p.body domain tbl

/-- The success-path postcondition of `store_report`: the database holds the
report row under the returned id, a record row per parsed record, and an
analysis row for the report. -/
def complete_stored (db : DB) (rid : Nat) (pr : ParsedReport) : Prop :=
  (∃ row ∈ db.reports, row.id = rid ∧ row.domain = pr.policy.domain) ∧
  (∀ rec ∈ pr.records, ∃ rrow ∈ db.records,
      rrow.report_id = rid ∧ rrow.source_ip = rec.source_ip ∧
      rrow.count = rec.count ∧ rrow.dkim_result = rec.dkim ∧ rrow.spf_result = rec.spf) ∧
  (∃ arow ∈ db.analyses, arow.report_id = rid)

/-! ### Concrete sample inputs used by the evaluations below -/

/-- A configuration whose optional notification/threshold keys are all
absent, so every read falls back to its coded default. -/
def cfg_default : Config :=
  { subject_tag := "[DMARC Alert]", send_clean_status := none,
    quiet_mode := none, thresholds := default_thresholds }

/-- A configuration with clean-status notifications enabled and quiet-mode
enabled. -/
def cfg_quiet : Config :=
  { subject_tag := "[DMARC Alert]", send_clean_status := some true,
    quiet_mode := some true, thresholds := default_thresholds }

/-- A parsed report with a single all-passing record. -/
def pr1 : ParsedReport :=
  { metadata := { org_name := "google.com", report_id := "r-2024-1",
                  date_range := { date_begin := 100, date_end := 200 } }
    policy := { domain := "example.com", p := "none", sp := "none", pct := 100 }
    records := [{ source_ip := "10.0.0.1", count := 5, disposition := "none",
                  dkim := "pass", spf := "pass" }] }

/-- The no-reports payload composed against an empty store. -/
def quiet_no_reports_payload : Payload :=
  create_no_reports_summary cfg_quiet DB.empty 0

/-- A report with 9 total messages, all failing, and an alarming narrative. -/
def report_nine : AnalyzedReport :=
  { raw_data :=
      { metadata := { org_name := "o", report_id := "n-9",
                      date_range := { date_begin := 0, date_end := 86400 } }
        policy := { domain := "nine.com", p := "none", sp := "none", pct := 100 }
        records := [{ source_ip := "1.2.3.4", count := 9, disposition := "none",
                      dkim := "fail", spf := "fail" }] }
    claude_analysis := "issue problem fail suspicious error warning"
    db_report_id := none }

/-- A report with 1000 total messages of which 949 pass both checks:
authentication rate exactly 94.9. -/
def report_949 : AnalyzedReport :=
  { raw_data :=
      { metadata := { org_name := "o", report_id := "n-949",
                      date_range := { date_begin := 0, date_end := 86400 } }
        policy := { domain := "boundary.com", p := "none", sp := "none", pct := 100 }
        records := [{ source_ip := "1.2.3.4", count := 949, disposition := "none",
                      dkim := "pass", spf := "pass" },
                    { source_ip := "5.6.7.8", count := 51, disposition := "none",
                      dkim := "fail", spf := "fail" }] }
    claude_analysis := "ok"
    db_report_id := none }

/-- Records with 20 total messages of which 19 pass both checks:
authentication rate exactly 95.0. -/
def records_95 : List ParsedRecord :=
  [{ source_ip := "1.2.3.4", count := 19, disposition := "none",
     dkim := "pass", spf := "pass" },
   { source_ip := "5.6.7.8", count := 1, disposition := "none",
     dkim := "fail", spf := "pass" }]

/-- A stored report processed 10 days ago (inside the trailing 7-30 day
comparison window relative to `now = 0`). -/
def report_hist0 : ReportRow :=
  { id := 1, domain := "d.com", org_name := "o", report_id := "h-1",
    date_begin := -864000, date_end := -800000, processed_at := -864000,
    policy_p := "none", policy_sp := "none", policy_pct := 100,
    total_messages := 10, total_sources := 1 }

/-- The stored analysis of `report_hist0`, with authentication rate 0. -/
def analysis_hist0 : AnalysisRow :=
  { id := 1, report_id := 1, claude_analysis := "fail", has_issues := true,
    auth_success_rate := 0, new_sources_detected := 1, created_at := -864000 }

/-- A store whose entire history for `d.com` is one all-failing report. -/
def db_hist0 : DB :=
  { reports := [report_hist0], records := [], analyses := [analysis_hist0],
    alert_history := [], next_report_id := 2, next_record_id := 1,
    next_analysis_id := 2, next_alert_id := 1 }

/-- A report whose period start precedes the purge cutoff `now = 0`. -/
def purge_r_old : ReportRow :=
  { id := 1, domain := "old.com", org_name := "o", report_id := "p-1",
    date_begin := -100, date_end := -50, processed_at := -100,
    policy_p := "none", policy_sp := "none", policy_pct := 100,
    total_messages := 1, total_sources := 1 }

/-- A report whose period start does not precede the purge cutoff. -/
def purge_r_new : ReportRow :=
  { id := 2, domain := "new.com", org_name := "o", report_id := "p-2",
    date_begin := 100, date_end := 200, processed_at := 100,
    policy_p := "none", policy_sp := "none", policy_pct := 100,
    total_messages := 1, total_sources := 1 }

def purge_rec_old : RecordRow :=
  { id := 1, report_id := 1, source_ip := "1.1.1.1", count := 1,
    disposition := "none", dkim_result := "fail", spf_result := "fail" }

def purge_rec_new : RecordRow :=
  { id := 2, report_id := 2, source_ip := "2.2.2.2", count := 1,
    disposition := "none", dkim_result := "pass", spf_result := "pass" }

def purge_a_old : AnalysisRow :=
  { id := 1, report_id := 1, claude_analysis := "x", has_issues := true,
    auth_success_rate := 0, new_sources_detected := 1, created_at := -100 }

def purge_a_new : AnalysisRow :=
  { id := 2, report_id := 2, claude_analysis := "y", has_issues := false,
    auth_success_rate := 100, new_sources_detected := 1, created_at := 100 }

def purge_al_old : AlertRow :=
  { id := 1, domain := "old.com", alert_type := "auth_rate",
    threshold_exceeded := "x", alert_sent := true, created_at := -100 }

def purge_al_new : AlertRow :=
  { id := 2, domain := "new.com", alert_type := "auth_rate",
    threshold_exceeded := "y", alert_sent := false, created_at := 100 }

/-- A store with one purgeable and one fresh row in every table. -/
def db_purge0 : DB :=
  { reports := [purge_r_old, purge_r_new]
    records := [purge_rec_old, purge_rec_new]
    analyses := [purge_a_old, purge_a_new]
    alert_history := [purge_al_old, purge_al_new]
    next_report_id := 3, next_record_id := 3, next_analysis_id := 3, next_alert_id := 3 }

/-- A store with no report older than the cutoff but an alert-history row
older than the cutoff. -/
def db_alerts_only : DB :=
  { reports := [purge_r_new], records := [], analyses := [],
    alert_history := [purge_al_old],
    next_report_id := 3, next_record_id := 1, next_analysis_id := 1, next_alert_id := 2 }

/-- A parsed report for `bad.com` with half of its 10 messages failing both
checks (rate 50, below the 95 threshold). -/
def pr_sig : ParsedReport :=
  { metadata := { org_name := "reporter.org", report_id := "sig-1",
                  date_range := { date_begin := 0, date_end := 86400 } }
    policy := { domain := "bad.com", p := "none", sp := "none", pct := 100 }
    records := [{ source_ip := "50.63.9.60", count := 5, disposition := "none",
                  dkim := "fail", spf := "fail" },
                { source_ip := "40.107.1.2", count := 5, disposition := "none",
                  dkim := "pass", spf := "pass" }] }

/-- A parsed report for `good.com` with all 10 messages passing. -/
def pr_clean : ParsedReport :=
  { metadata := { org_name := "reporter.org", report_id := "cl-1",
                  date_range := { date_begin := 0, date_end := 86400 } }
    policy := { domain := "good.com", p := "none", sp := "none", pct := 100 }
    records := [{ source_ip := "40.107.1.2", count := 10, disposition := "none",
                  dkim := "pass", spf := "pass" }] }

/-- The store state after the code itself stored `pr_sig` (db report id 1). -/
def db_c2 : DB := (store_report DB.empty pr_sig "ok" 0).2

def sig_report : AnalyzedReport :=
  { raw_data := pr_sig, claude_analysis := "ok", db_report_id := some 1 }

def clean_report : AnalyzedReport :=
  { raw_data := pr_clean, claude_analysis := "ok", db_report_id := none }

/-! ### Helper lemmas -/

theorem ratFloor_eq_floor (q : ℚ) : ratFloor q = ⌊q⌋ := by
  rw [ratFloor, Int.fdiv_eq_ediv _ (Int.ofNat_nonneg q.den), Rat.floor_def]

theorem roundHalfToEven_intCast (n : ℤ) : roundHalfToEven (n : ℚ) = n := by
  unfold roundHalfToEven
  rw [ratFloor_eq_floor, Int.floor_intCast]
  norm_num

theorem pyRound1_int (n : ℤ) : pyRound1 (n : ℚ) = (n : ℚ) := by
  unfold pyRound1
  have h : (n : ℚ) * 10 = ((n * 10 : ℤ) : ℚ) := by push_cast; ring
  rw [h, roundHalfToEven_intCast]
  push_cast
  ring

theorem pyRound1_zero : pyRound1 0 = 0 := by
  simpa using pyRound1_int 0

theorem pyRound1_tenth (n : ℤ) : pyRound1 ((n : ℚ) / 10) = (n : ℚ) / 10 := by
  unfold pyRound1
  have h : ((n : ℚ) / 10) * 10 = (n : ℚ) := by field_simp
  rw [h, roundHalfToEven_intCast]

theorem length_filter_add_length_filter_not {α : Type} (p : α → Bool) (l : List α) :
    (l.filter p).length + (l.filter (fun a => !(p a))).length = l.length := by
  induction l with
  | nil => rfl
  | cons a l ih =>
    cases h : p a <;> simp [List.filter_cons, h] <;> omega

theorem nat_contains_iff (l : List Nat) (a : Nat) : l.contains a = true ↔ a ∈ l := by
  simp [List.contains, List.elem_iff]

/-- When a domain has no joined rows in the trailing comparison window, the
historical average falls back to the current rate: delta 0, trend stable. -/
theorem compare_no_history (db : DB) (now : Int) (domain : String) (r : ℚ)
    (hz : hist_pairs db now domain = []) (hr : pyRound1 r = r) :
    compare_with_historical db now domain r =
      { historical_avg := r, current_rate := r, change := 0, trend := "stable" } := by
  have h0 : r - r = 0 := by ring
  simp only [compare_with_historical, hz, List.isEmpty_nil, if_true, h0, pyRound1_zero, hr]
  norm_num

/-- When every joined row in the window carries rate 0, the Python `or`
treats the zero average as missing and falls back to the current rate. -/
theorem compare_zero_history (db : DB) (now : Int) (domain : String) (r : ℚ)
    (hne : (hist_pairs db now domain).isEmpty = false)
    (hzero : ∀ ra ∈ hist_pairs db now domain, ra.2.auth_success_rate = 0)
    (hr : pyRound1 r = r) :
    compare_with_historical db now domain r =
      { historical_avg := r, current_rate := r, change := 0, trend := "stable" } := by
  have hsum : ((hist_pairs db now domain).map (fun ra => ra.2.auth_success_rate)).sum = 0 := by
    apply List.sum_eq_zero
    intro x hx
    obtain ⟨ra, hra, hxe⟩ := List.mem_map.mp hx
    rw [← hxe]
    exact hzero ra hra
  have h0 : r - r = 0 := by ring
  simp only [compare_with_historical, hne, Bool.false_eq_true, if_false, hsum, zero_div,
    if_pos rfl, h0, pyRound1_zero, hr]
  norm_num
  exact ⟨hr, pyRound1_zero⟩

theorem find_report_row_fields {db : DB} {pr : ParsedReport} {row : ReportRow}
    (h : find_report_row db pr = some row) :
    row ∈ db.reports ∧ row.domain = pr.policy.domain := by
  refine ⟨List.mem_of_find?_eq_some h, ?_⟩
  have hp := List.find?_some h
  simp only [Bool.and_eq_true, beq_iff_eq] at hp
  exact hp.1.1.1.1

theorem find_after_insert (db : DB) (pr : ParsedReport) (now : Int) :
    ∃ row, find_report_row (insert_report_ignore db pr now) pr = some row := by
  unfold insert_report_ignore
  cases h : find_report_row db pr with
  | some row => exact ⟨row, h⟩
  | none =>
    refine ⟨{ id := db.next_report_id, domain := pr.policy.domain,
              org_name := pr.metadata.org_name, report_id := pr.metadata.report_id,
              date_begin := pr.metadata.date_range.date_begin,
              date_end := pr.metadata.date_range.date_end, processed_at := now,
              policy_p := pr.policy.p, policy_sp := pr.policy.sp,
              policy_pct := pr.policy.pct,
              total_messages := total_messages pr.records,
              total_sources := pr.records.length }, ?_⟩
    unfold find_report_row at h ⊢
    simp only [List.find?_append, h, Option.none_or]
    simp [List.find?]

theorem foldl_insert_record_reports (recs : List ParsedRecord) (db : DB) (rid : Nat) :
    (recs.foldl (fun d rec => insert_record d rid rec) db).reports = db.reports := by
  induction recs generalizing db with
  | nil => rfl
  | cons rec recs ih => simpa [insert_record] using ih (insert_record db rid rec)

theorem foldl_insert_record_analyses (recs : List ParsedRecord) (db : DB) (rid : Nat) :
    (recs.foldl (fun d rec => insert_record d rid rec) db).analyses = db.analyses := by
  induction recs generalizing db with
  | nil => rfl
  | cons rec recs ih => simpa [insert_record] using ih (insert_record db rid rec)

theorem foldl_insert_record_records_mono (recs : List ParsedRecord) (db : DB) (rid : Nat)
    {x : RecordRow} (hx : x ∈ db.records) :
    x ∈ (recs.foldl (fun d rec => insert_record d rid rec) db).records := by
  induction recs generalizing db with
  | nil => exact hx
  | cons rec recs ih =>
    exact ih (insert_record db rid rec) (by simp [insert_record, hx])

theorem foldl_insert_record_mem (recs : List ParsedRecord) (db : DB) (rid : Nat) :
    ∀ rec ∈ recs, ∃ rrow ∈ (recs.foldl (fun d r => insert_record d rid r) db).records,
      rrow.report_id = rid ∧ rrow.source_ip = rec.source_ip ∧
      rrow.count = rec.count ∧ rrow.dkim_result = rec.dkim ∧ rrow.spf_result = rec.spf := by
  induction recs generalizing db with
  | nil => intro rec h; exact absurd h (List.not_mem_nil rec)
  | cons head recs ih =>
    intro rec hmem
    rcases List.mem_cons.mp hmem with heq | htail
    · subst heq
      refine ⟨{ id := db.next_record_id, report_id := rid, source_ip := rec.source_ip,
                count := rec.count, disposition := rec.disposition,
                dkim_result := rec.dkim, spf_result := rec.spf }, ?_, by simp⟩
      exact foldl_insert_record_records_mono recs (insert_record db rid rec) rid
        (by simp [insert_record])
    · exact ih (insert_record db rid head) rec htail

/-! ### Claim theorems -/

/-- C1.  The claim asserts that storing the same report twice returns the same
report identifier (which holds) and that the second call is a no-op that adds
no duplicate record rows.  The code violates the second half: the `records`
table has no uniqueness constraint, so the second `store_report` call inserts
a second copy of the report's record row — after storing the one-record
report `pr1` twice, both calls return id 1 but the records table holds two
rows. -/
theorem store_report_duplicates_record_rows :
    (store_report DB.empty pr1 "ok" 0).1 = some 1 ∧
    (store_report (store_report DB.empty pr1 "ok" 0).2 pr1 "ok" 0).1 = some 1 ∧
    (store_report DB.empty pr1 "ok" 0).2.records.length = 1 ∧
    (store_report (store_report DB.empty pr1 "ok" 0).2 pr1 "ok" 0).2.records.length = 2 := by
  decide

/-- C4.  The claim asserts upsert semantics for the analyses table: at most
one analysis row per report.  The code violates it: `INSERT OR REPLACE` never
fires because `analyses` has no uniqueness constraint on `report_id`, so
storing the same report twice leaves two analysis rows for report id 1. -/
theorem store_report_accumulates_analyses :
    ((store_report (store_report DB.empty pr1 "ok" 0).2 pr1 "ok" 0).2.analyses.map
        (fun a => a.report_id)) = [1, 1] := by
  decide

/-- C3, counterexample.  The claim's gating predicate (`claimed_should_send`)
and the implemented one disagree on a concrete input: a no-reports payload
under a configuration with clean-status notifications enabled and quiet-mode
enabled is dispatched by the code but not by the claim. -/
theorem should_send_report_claim_counterexample :
    should_send_report cfg_quiet (some quiet_no_reports_payload) = true ∧
    claimed_should_send cfg_quiet (some quiet_no_reports_payload) = false := by
  decide

/-- C3, amended.  `should_send_report` returns true iff the payload is
non-null and (it has issues, or clean-status notifications are enabled —
regardless of the payload's kind — or it is a no-reports payload and
quiet-mode is disabled); a null payload is never sent. -/
theorem should_send_report_amended_gating (cfg : Config) (report_data : Option Payload) :
    should_send_report cfg report_data = amended_gating cfg report_data := by
  cases report_data with
  | none => rfl
  | some p =>
    simp only [should_send_report, amended_gating]
    cases h1 : p.has_issues <;>
      cases h2 : cfg.send_clean_status.getD true <;>
        simp [h1, h2]

/-- C6.  In the narrative keyword step, any positive keyword forces a
not-significant verdict even when issue keywords are present; an issue
keyword with no positive keyword yields significant; and concretely a
narrative containing both "failure" and "no issues detected" is not flagged
by the keyword step. -/
theorem positive_keyword_override :
    (∀ s : String, contains_positive_keyword s = true →
        keyword_step_significant s = false) ∧
    (∀ s : String, contains_positive_keyword s = false →
        contains_issue_keyword s = true → keyword_step_significant s = true) ∧
    keyword_step_significant
      "Authentication failure detected but no issues detected overall" = false := by
  refine ⟨?_, ?_, by decide⟩
  · intro s h
    simp [keyword_step_significant, h]
  · intro s h1 h2
    simp [keyword_step_significant, h1, h2]

/-- Witness for C6 at concrete narratives. -/
theorem positive_keyword_override_witness :
    keyword_step_significant "no issues" = false ∧
    keyword_step_significant "problem" = true :=
  ⟨positive_keyword_override.1 "no issues" (by decide),
   positive_keyword_override.2.1 "problem" (by decide) (by decide)⟩

/-- C7.  For a domain with no joined historical rows whose processing time
falls in the `[now-30d, now-7d]` window, `compare_with_historical` returns
the current rate as the historical average, delta 0 and trend "stable" (the
returned fields pass through `round(·, 1)`, so the current rate is assumed
stable under one-decimal rounding, as every rate the report displays is). -/
theorem first_report_trend_neutrality (db : DB) (now : Int) (domain : String) (r : ℚ)
    (hz : hist_pairs db now domain = []) (hr : pyRound1 r = r) :
    compare_with_historical db now domain r =
      { historical_avg := r, current_rate := r, change := 0, trend := "stable" } :=
  compare_no_history db now domain r hz hr

/-- Witness for C7: an empty store and current rate 73.3. -/
theorem first_report_trend_neutrality_witness :
    compare_with_historical DB.empty 0 "example.com" (733 / 10) =
      { historical_avg := 733 / 10, current_rate := 733 / 10,
        change := 0, trend := "stable" } :=
  first_report_trend_neutrality DB.empty 0 "example.com" (733 / 10) (by decide)
    (by simpa using pyRound1_tenth 733)

/-- C10.  When every historical row for the domain in the comparison window
carries authentication rate 0, the zero average is falsy in Python, so the
history is treated as absent: the current rate is returned as the historical
average, delta 0 and trend "stable" (current rate assumed stable under
one-decimal rounding, as in C7). -/
theorem zero_average_history_treated_as_absent (db : DB) (now : Int) (domain : String)
    (r : ℚ) (hne : hist_pairs db now domain ≠ [])
    (hzero : ∀ ra ∈ hist_pairs db now domain, ra.2.auth_success_rate = 0)
    (hr : pyRound1 r = r) :
    compare_with_historical db now domain r =
      { historical_avg := r, current_rate := r, change := 0, trend := "stable" } :=
  compare_zero_history db now domain r
    (by rcases h : (hist_pairs db now domain).isEmpty with _ | _
        · rfl
        · exact absurd (List.isEmpty_iff.mp h) hne)
    hzero hr

/-- Witness for C10: a store whose entire history for `d.com` is one
all-failing report, with current rate 100. -/
theorem zero_average_history_witness :
    compare_with_historical db_hist0 0 "d.com" 100 =
      { historical_avg := 100, current_rate := 100, change := 0, trend := "stable" } :=
  zero_average_history_treated_as_absent db_hist0 0 "d.com" 100 (by decide) (by decide)
    (by simpa using pyRound1_int 100)

/-- C5.  With default thresholds: any report with fewer than 10 total
messages is never significant, whatever its rate, history or narrative; any
report with at least 10 messages and rate exactly 94.9 is significant
(via the rate check, before any historical or narrative step); and rate
exactly 95.0 does not trigger the rate check.  (With integer message counts
a total of exactly 10 cannot realize the rates 94.9 or 95.0, so the
boundary rates are quantified over all admissible record lists; the witness
realizes them at totals 1000 and 20.) -/
theorem classifier_threshold_boundary :
    (∀ (cfg : Config) (db : DB) (now : Int) (r : AnalyzedReport),
        cfg.thresholds = default_thresholds →
        total_messages r.raw_data.records < 10 →
        has_significant_issues cfg db now r = false) ∧
    (∀ (cfg : Config) (db : DB) (now : Int) (r : AnalyzedReport),
        cfg.thresholds = default_thresholds →
        10 ≤ total_messages r.raw_data.records →
        auth_success_rate_of r.raw_data.records = 949 / 10 →
        has_significant_issues cfg db now r = true) ∧
    (∀ records : List ParsedRecord, auth_success_rate_of records = 95 →
        rate_check_triggers default_thresholds records = false) := by
  refine ⟨?_, ?_, ?_⟩
  · intro cfg db now r hcfg hlt
    simp only [has_significant_issues, hcfg, default_thresholds, Option.getD_none]
    rw [if_pos hlt]
  · intro cfg db now r hcfg hge hrate
    have hnlt : ¬(total_messages r.raw_data.records < 10) := Nat.not_lt.mpr hge
    have hrc : rate_check_triggers default_thresholds r.raw_data.records = true := by
      simp only [rate_check_triggers, hrate, default_thresholds, Option.getD_none]
      rw [decide_eq_true_eq]
      norm_num
    simp only [has_significant_issues, hcfg, default_thresholds, Option.getD_none] at hrc ⊢
    rw [if_neg hnlt, if_pos hrc]
  · intro records hrate
    simp only [rate_check_triggers, hrate, default_thresholds, Option.getD_none]
    rw [decide_eq_false_iff_not]
    norm_num

/-- Witness for C5: a 9-message all-failing report with an alarming
narrative is not significant; a 1000-message report with 949 passing
(rate 94.9) is; records totalling 20 with 19 passing (rate 95.0) do not
trigger the rate check. -/
theorem classifier_threshold_boundary_witness :
    has_significant_issues cfg_default DB.empty 0 report_nine = false ∧
    has_significant_issues cfg_default DB.empty 0 report_949 = true ∧
    rate_check_triggers default_thresholds records_95 = false :=
  ⟨classifier_threshold_boundary.1 cfg_default DB.empty 0 report_nine rfl (by decide),
   classifier_threshold_boundary.2.1 cfg_default DB.empty 0 report_949 rfl (by decide)
     (by
       have h1 : total_messages report_949.raw_data.records = 1000 := by decide
       have h2 : successful_messages report_949.raw_data.records = 949 := by decide
       simp only [auth_success_rate_of, h1, h2]
       norm_num),
   classifier_threshold_boundary.2.2 records_95
     (by
       have h1 : total_messages records_95 = 20 := by decide
       have h2 : successful_messages records_95 = 19 := by decide
       simp only [auth_success_rate_of, h1, h2]
       norm_num)⟩

/-- Every run of `store_report` either returns some id with the report, all
its records and an analysis row present, or returns the failure sentinel
with the database unchanged. -/
theorem store_report_complete (db : DB) (pr : ParsedReport) (ca : String) (now : Int) :
    ∃ rid, (store_report db pr ca now).1 = some rid ∧
      complete_stored (store_report db pr ca now).2 rid pr := by
  obtain ⟨row, hfind⟩ := find_after_insert db pr now
  have hfields := find_report_row_fields hfind
  simp only [store_report, hfind]
  refine ⟨row.id, rfl, ?_, ?_, ?_⟩
  · refine ⟨row, ?_, rfl, hfields.2⟩
    simp only [insert_analysis, foldl_insert_record_reports]
    exact hfields.1
  · intro rec hrec
    obtain ⟨rrow, hmem, hprops⟩ :=
      foldl_insert_record_mem pr.records (insert_report_ignore db pr now) row.id rec hrec
    exact ⟨rrow, by simp only [insert_analysis]; exact hmem, hprops⟩
  · exact ⟨_, List.mem_append_right _ (List.mem_singleton_self _), rfl⟩

/-- C9.  Storage failure atomicity: a failure at any statement of the store
transaction yields the `None` sentinel with the database unchanged (the
sqlite connection context manager rolls the transaction back and the
`except` clause converts the exception); and in general every run either
fails cleanly in that way or commits the report, its records and its
analysis as a unit. -/
theorem store_failure_atomicity :
    (∀ (db : DB) (pr : ParsedReport) (ca : String) (now : Int) (k : Nat),
        k < store_statement_count pr →
        store_report_with_failure db pr ca now (some k) = (none, db)) ∧
    (∀ (db : DB) (pr : ParsedReport) (ca : String) (now : Int) (fail_at : Option Nat),
        ((store_report_with_failure db pr ca now fail_at).1 = none ∧
          (store_report_with_failure db pr ca now fail_at).2 = db) ∨
        (∃ rid, (store_report_with_failure db pr ca now fail_at).1 = some rid ∧
          complete_stored (store_report_with_failure db pr ca now fail_at).2 rid pr)) := by
  constructor
  · intro db pr ca now k hk
    simp only [store_report_with_failure]
    rw [if_pos hk]
  · intro db pr ca now fail_at
    have hsucc : ∀ h : store_report_with_failure db pr ca now fail_at =
        store_report db pr ca now,
        (∃ rid, (store_report_with_failure db pr ca now fail_at).1 = some rid ∧
          complete_stored (store_report_with_failure db pr ca now fail_at).2 rid pr) := by
      intro h
      rw [h]
      exact store_report_complete db pr ca now
    cases fail_at with
    | none => exact Or.inr (hsucc rfl)
    | some k =>
      by_cases hk : k < store_statement_count pr
      · left
        simp only [store_report_with_failure]
        rw [if_pos hk]
        exact ⟨rfl, rfl⟩
      · right
        refine hsucc ?_
        simp only [store_report_with_failure]
        rw [if_neg hk]

/-- Witness for C9: a failure at the first statement of the transaction
leaves the empty store unchanged and returns the sentinel. -/
theorem store_failure_atomicity_witness :
    store_report_with_failure DB.empty pr1 "ok" 0 (some 0) = (none, DB.empty) :=
  store_failure_atomicity.1 DB.empty pr1 "ok" 0 0 (by decide)

/-- C8, counterexample.  The claim requires the purge to delete every
alert-history row older than the cutoff; but when no report predates the
cutoff, `purge_old_data` returns early — before the alert delete statement —
so an alert-history row older than the cutoff survives and the returned
count is 0. -/
theorem purge_claim_counterexample :
    purge_al_old.created_at < 0 ∧
    (purge_old_data db_alerts_only 0 0).1.alerts_deleted = 0 ∧
    (purge_old_data db_alerts_only 0 0).2.alert_history = [purge_al_old] := by
  decide

/-- C8, amended.  Provided at least one stored report predates the cutoff
(otherwise the purge returns early and deletes nothing), purging with
`retention_days = 0` removes every report whose period start precedes `now`
together with all record and analysis rows of those reports, removes every
alert-history row older than `now`, and returns the per-table deletion
counts; the subsequent `VACUUM` reclaims file space without changing the
logical contents. -/
theorem purge_correctness_amended (db : DB) (now : Int)
    (h : db.reports.filter (fun r => decide (r.date_begin < now)) ≠ []) :
    (∀ r ∈ (purge_old_data db now 0).2.reports, ¬(r.date_begin < now)) ∧
    (∀ rec ∈ (purge_old_data db now 0).2.records, ∀ r ∈ db.reports,
        r.date_begin < now → rec.report_id ≠ r.id) ∧
    (∀ a ∈ (purge_old_data db now 0).2.analyses, ∀ r ∈ db.reports,
        r.date_begin < now → a.report_id ≠ r.id) ∧
    (∀ al ∈ (purge_old_data db now 0).2.alert_history, ¬(al.created_at < now)) ∧
    (purge_old_data db now 0).1.reports_deleted =
      db.reports.length - (purge_old_data db now 0).2.reports.length ∧
    (purge_old_data db now 0).1.records_deleted =
      db.records.length - (purge_old_data db now 0).2.records.length ∧
    (purge_old_data db now 0).1.analyses_deleted =
      db.analyses.length - (purge_old_data db now 0).2.analyses.length ∧
    (purge_old_data db now 0).1.alerts_deleted =
      db.alert_history.length - (purge_old_data db now 0).2.alert_history.length := by
  have hlen : ¬((db.reports.filter (fun r => decide (r.date_begin < now))).length = 0) := by
    simpa [List.length_eq_zero] using h
  have hpurge : purge_old_data db now 0 =
      ({ reports_deleted := (db.reports.filter (fun r => decide (r.date_begin < now))).length
         records_deleted := (db.records.filter (fun rec =>
           ((db.reports.filter (fun r => decide (r.date_begin < now))).map (fun r => r.id)).contains
             rec.report_id)).length
         analyses_deleted := (db.analyses.filter (fun a =>
           ((db.reports.filter (fun r => decide (r.date_begin < now))).map (fun r => r.id)).contains
             a.report_id)).length
         alerts_deleted := (db.alert_history.filter (fun al => decide (al.created_at < now))).length
         retention_days := 0 },
       { db with
         reports := db.reports.filter (fun r => !(decide (r.date_begin < now)))
         records := db.records.filter (fun rec =>
           !(((db.reports.filter (fun r => decide (r.date_begin < now))).map (fun r => r.id)).contains
             rec.report_id))
         analyses := db.analyses.filter (fun a =>
           !(((db.reports.filter (fun r => decide (r.date_begin < now))).map (fun r => r.id)).contains
             a.report_id))
         alert_history := db.alert_history.filter (fun al => !(decide (al.created_at < now))) }) := by
    simp only [purge_old_data, Nat.cast_zero, zero_mul, sub_zero]
    rw [if_neg hlen]
  rw [hpurge]
  dsimp only
  refine ⟨?_, ?_, ?_, ?_, ?_, ?_, ?_, ?_⟩
  · intro r hr
    simp only [List.mem_filter, Bool.not_eq_eq_eq_not, Bool.not_true,
      decide_eq_false_iff_not] at hr
    exact hr.2
  · intro rec hrec r hr hlt heq
    simp only [List.mem_filter, Bool.not_eq_eq_eq_not, Bool.not_true] at hrec
    have hmem : rec.report_id ∈
        (db.reports.filter (fun r => decide (r.date_begin < now))).map (fun r => r.id) := by
      rw [heq]
      exact List.mem_map_of_mem _ (List.mem_filter.mpr ⟨hr, decide_eq_true hlt⟩)
    rw [(nat_contains_iff _ _).mpr hmem] at hrec
    exact absurd hrec.2 (by simp)
  · intro a ha r hr hlt heq
    simp only [List.mem_filter, Bool.not_eq_eq_eq_not, Bool.not_true] at ha
    have hmem : a.report_id ∈
        (db.reports.filter (fun r => decide (r.date_begin < now))).map (fun r => r.id) := by
      rw [heq]
      exact List.mem_map_of_mem _ (List.mem_filter.mpr ⟨hr, decide_eq_true hlt⟩)
    rw [(nat_contains_iff _ _).mpr hmem] at ha
    exact absurd ha.2 (by simp)
  · intro al hal
    simp only [List.mem_filter, Bool.not_eq_eq_eq_not, Bool.not_true,
      decide_eq_false_iff_not] at hal
    exact hal.2
  · have := length_filter_add_length_filter_not
      (fun r => decide (r.date_begin < now)) db.reports
    omega
  · have := length_filter_add_length_filter_not
      (fun rec =>
        ((db.reports.filter (fun r => decide (r.date_begin < now))).map (fun r => r.id)).contains
          rec.report_id) db.records
    omega
  · have := length_filter_add_length_filter_not
      (fun a =>
        ((db.reports.filter (fun r => decide (r.date_begin < now))).map (fun r => r.id)).contains
          a.report_id) db.analyses
    omega
  · have := length_filter_add_length_filter_not
      (fun al => decide (al.created_at < now)) db.alert_history
    omega

/-- Witness for C8 on a store with one purgeable and one fresh row per
table: the surviving rows are fresh and the counts match. -/
theorem purge_correctness_amended_witness :
    ¬(purge_r_new.date_begin < 0) ∧
    purge_rec_new.report_id ≠ purge_r_old.id ∧
    purge_a_new.report_id ≠ purge_r_old.id ∧
    ¬(purge_al_new.created_at < 0) ∧
    (purge_old_data db_purge0 0 0).1.reports_deleted =
      db_purge0.reports.length - (purge_old_data db_purge0 0 0).2.reports.length := by
  have T := purge_correctness_amended db_purge0 0 (by decide)
  exact ⟨T.1 purge_r_new (by decide),
    T.2.1 purge_rec_new (by decide) purge_r_old (by decide) (by decide),
    T.2.2.1 purge_a_new (by decide) purge_r_old (by decide) (by decide),
    T.2.2.2.1 purge_al_new (by decide),
    T.2.2.2.2.1⟩

/-- C2.  Composer selection: an empty input list yields the no-reports
payload; a non-empty list with zero significant reports and clean-status
enabled yields the clean payload; a list containing a significant report
yields the issues payload, and for every significant report that carries a
database id with a non-empty stored failure list, the issues body contains
that domain's per-IP failure table annotated with the IP-reputation
organization labels. -/
theorem composer_selection :
    (∀ (cfg : Config) (db : DB) (now : Int),
        generate_smart_report cfg db now [] = some (create_no_reports_summary cfg db now) ∧
        (create_no_reports_summary cfg db now).no_reports = true ∧
        (create_no_reports_summary cfg db now).has_issues = false) ∧
    (∀ (cfg : Config) (db : DB) (now : Int) (rs : List AnalyzedReport),
        rs ≠ [] →
        (∀ r ∈ rs, has_significant_issues cfg db now r = false) →
        cfg.send_clean_status.getD true = true →
        generate_smart_report cfg db now rs = some (create_clean_status_report cfg db now rs) ∧
        (create_clean_status_report cfg db now rs).has_issues = false ∧
        (create_clean_status_report cfg db now rs).no_reports = false ∧
        (create_clean_status_report cfg db now rs).clean_count = some rs.length) ∧
    (∀ (cfg : Config) (db : DB) (now : Int) (rs : List AnalyzedReport)
        (s : AnalyzedReport), s ∈ rs →
        has_significant_issues cfg db now s = true →
        ((generate_smart_report cfg db now rs).map Payload.has_issues = some true) ∧
        (∀ rid, s.db_report_id = some rid →
          get_failure_details db s.raw_data.policy.domain rid ≠ [] →
          payload_body_has_table (generate_smart_report cfg db now rs)
            s.raw_data.policy.domain
            (enrich_failure_details db s.raw_data.policy.domain rid) = true)) := by
  refine ⟨?_, ?_, ?_⟩
  · intro cfg db now
    exact ⟨rfl, rfl, rfl⟩
  · intro cfg db now rs hne hall hsend
    have hie : rs.isEmpty = false :=
      Bool.eq_false_iff.mpr (fun hx => hne (List.isEmpty_iff.mp hx))
    have hfe : rs.filter (fun r => has_significant_issues cfg db now r) = [] :=
      List.filter_eq_nil_iff.mpr (fun a ha => by simp [hall a ha])
    have hfs : rs.filter (not ∘ fun r => has_significant_issues cfg db now r) = rs :=
      List.filter_eq_self.mpr (fun a ha => by simp [Function.comp, hall a ha])
    refine ⟨?_, rfl, rfl, ?_⟩
    · simp only [generate_smart_report, List.partition_eq_filter_filter, hie,
        Bool.false_eq_true, if_false, hfe, hfs, List.isEmpty_nil, Bool.not_true, hsend,
        if_true]
    · simp only [create_clean_status_report, hfs]
  · intro cfg db now rs s hs hsig
    have hne : rs ≠ [] := List.ne_nil_of_mem hs
    have hie : rs.isEmpty = false :=
      Bool.eq_false_iff.mpr (fun hx => hne (List.isEmpty_iff.mp hx))
    have hmemf : s ∈ rs.filter (fun r => has_significant_issues cfg db now r) :=
      List.mem_filter.mpr ⟨hs, hsig⟩
    have hfie : (rs.filter (fun r => has_significant_issues cfg db now r)).isEmpty = false :=
      Bool.eq_false_iff.mpr
        (fun hx => (List.ne_nil_of_mem hmemf) (List.isEmpty_iff.mp hx))
    have hgen : generate_smart_report cfg db now rs =
        some (create_issues_report cfg db now
          (rs.filter (fun r => has_significant_issues cfg db now r))
          (rs.filter (not ∘ fun r => has_significant_issues cfg db now r))) := by
      simp only [generate_smart_report, List.partition_eq_filter_filter, hie,
        Bool.false_eq_true, if_false, hfie, Bool.not_false, if_true]
    constructor
    · rw [hgen]
      rfl
    · intro rid hrid hfdne
      have hfdie : (get_failure_details db s.raw_data.policy.domain rid).isEmpty = false :=
        Bool.eq_false_iff.mpr (fun hx => hfdne (List.isEmpty_iff.mp hx))
      have hblock : issues_domain_block db now s =
          BodyItem.domain_detail s.raw_data.policy.domain s.raw_data.metadata.org_name
            (auth_success_rate_of s.raw_data.records)
            (compare_with_historical db now s.raw_data.policy.domain
              (auth_success_rate_of s.raw_data.records))
            (some (enrich_failure_details db s.raw_data.policy.domain rid))
            (extract_enhanced_recommendations s.claude_analysis) := by
        simp only [issues_domain_block, hrid, hfdie, Bool.false_eq_true, if_false]
      rw [hgen]
      show body_has_failure_table (create_issues_report cfg db now _ _).body
        s.raw_data.policy.domain
        (enrich_failure_details db s.raw_data.policy.domain rid) = true
      simp only [create_issues_report, body_has_failure_table]
      rw [List.any_eq_true]
      refine ⟨issues_domain_block db now s, ?_, ?_⟩
      · exact List.mem_cons_of_mem _
          (List.mem_append_left _ (List.mem_append_left _ (List.mem_map_of_mem _ hmemf)))
      · rw [hblock]
        simp

/-- Evaluation: the all-passing `clean_report` is not significant against
the store `db_c2`. -/
theorem clean_report_not_significant :
    has_significant_issues cfg_default db_c2 0 clean_report = false := by
  have h1 : total_messages clean_report.raw_data.records = 10 := by decide
  have hrate : auth_success_rate_of clean_report.raw_data.records = 100 := by
    have h2 : successful_messages clean_report.raw_data.records = 10 := by decide
    simp only [auth_success_rate_of, h1, h2]
    norm_num
  have hrc : rate_check_triggers default_thresholds clean_report.raw_data.records
      = false := by
    simp only [rate_check_triggers, hrate]
    rw [show default_thresholds.auth_success_rate_min.getD 95 = 95 from rfl,
      decide_eq_false_iff_not]
    norm_num
  have hcmp : compare_with_historical db_c2 0 clean_report.raw_data.policy.domain
      (auth_success_rate_of clean_report.raw_data.records) =
      { historical_avg := 100, current_rate := 100, change := 0, trend := "stable" } := by
    rw [hrate]
    exact compare_no_history db_c2 0 _ 100 (by decide) (by simpa using pyRound1_int 100)
  have hhd : (get_historical_data db_c2 0 clean_report.raw_data.policy.domain 7).isEmpty
      = true := by decide
  have hkw : keyword_step_significant clean_report.claude_analysis = false := by decide
  have hcfg : cfg_default.thresholds = default_thresholds := rfl
  simp only [has_significant_issues, hcfg, h1, hrc, hcmp, hhd, hkw,
    show default_thresholds.minimum_messages_for_alert.getD 10 = 10 from rfl,
    show default_thresholds.auth_rate_drop_threshold.getD 5 = 5 from rfl,
    Bool.false_eq_true, if_false, Bool.not_true, Bool.false_and]
  rw [if_neg (by norm_num : ¬(10 < 10))]
  rw [if_neg ?hdrop]
  case hdrop => norm_num

/-- Evaluation: the half-failing `sig_report` is significant against the
store `db_c2` (rate 50 is below the 95 threshold). -/
theorem sig_report_significant :
    has_significant_issues cfg_default db_c2 0 sig_report = true := by
  have h1 : total_messages sig_report.raw_data.records = 10 := by decide
  have hrate : auth_success_rate_of sig_report.raw_data.records = 50 := by
    have h2 : successful_messages sig_report.raw_data.records = 5 := by decide
    simp only [auth_success_rate_of, h1, h2]
    norm_num
  have hrc : rate_check_triggers default_thresholds sig_report.raw_data.records
      = true := by
    simp only [rate_check_triggers, hrate]
    rw [show default_thresholds.auth_success_rate_min.getD 95 = 95 from rfl,
      decide_eq_true_eq]
    norm_num
  have hcfg : cfg_default.thresholds = default_thresholds := rfl
  simp only [has_significant_issues, hcfg, h1, hrc,
    show default_thresholds.minimum_messages_for_alert.getD 10 = 10 from rfl, if_true]
  rw [if_neg (by norm_num : ¬(10 < 10))]

/-- Witness for C2: against the store `db_c2` (holding the stored rows of
`pr_sig`), the empty run gives the no-reports payload, a clean-only run the
clean payload, and a run with the significant report the issues payload
whose body carries the `bad.com` failure table. -/
theorem composer_selection_witness :
    (generate_smart_report cfg_default db_c2 0 [] =
      some (create_no_reports_summary cfg_default db_c2 0)) ∧
    (generate_smart_report cfg_default db_c2 0 [clean_report] =
      some (create_clean_status_report cfg_default db_c2 0 [clean_report])) ∧
    ((generate_smart_report cfg_default db_c2 0 [sig_report]).map Payload.has_issues
      = some true) ∧
    (payload_body_has_table (generate_smart_report cfg_default db_c2 0 [sig_report])
      "bad.com" (enrich_failure_details db_c2 "bad.com" 1) = true) := by
  refine ⟨(composer_selection.1 cfg_default db_c2 0).1, ?_, ?_, ?_⟩
  · exact (composer_selection.2.1 cfg_default db_c2 0 [clean_report] (by simp)
      (by intro r hr
          rw [List.mem_singleton.mp hr]
          exact clean_report_not_significant) rfl).1
  · exact (composer_selection.2.2 cfg_default db_c2 0 [sig_report] sig_report
      (List.mem_singleton_self _) sig_report_significant).1
  · exact (composer_selection.2.2 cfg_default db_c2 0 [sig_report] sig_report
      (List.mem_singleton_self _) sig_report_significant).2 1 rfl (by decide)

